import Mathlib

/-!
Verification of the task-tracking deployment bundle against its specification.

The development shallowly embeds the three artifacts the claims are about:
the Express backend (backend/server.js), the React client (frontend/src/App.js)
and the infrastructure provisioning script (aws-setup.sh).  Mongo documents
become a Lean structure, the document store a list of documents, request
handlers pure functions from store and request to response and new store, and
a possible persistence failure an explicit optional error-message argument.
-/

namespace Backend

/-- A persisted Task document, following the mongoose TaskSchema of
backend/server.js: title required, description optional, completed with
default false, createdAt with default Date.now, serverHostname and serverIp
optional strings.  Timestamps are modelled as natural numbers (milliseconds),
the Mongo ObjectId as its 24-character hex string. -/
structure Task where
  _id : String
  title : String
  description : Option String
  completed : Bool
  createdAt : Nat
  serverHostname : Option String
  serverIp : Option String
deriving Repr, DecidableEq

/-- A JSON request body for the create and update routes: any subset of the
Task fields may be supplied by the client. -/
structure TaskBody where
  _id : Option String := none
  title : Option String := none
  description : Option String := none
  completed : Option Bool := none
  createdAt : Option Nat := none
  serverHostname : Option String := none
  serverIp : Option String := none
deriving Repr, DecidableEq

/-- One entry of os.networkInterfaces(): an address family tag, the internal
flag and the address string. -/
structure NetInterface where
  family : String
  internal : Bool
  address : String
deriving Repr, DecidableEq

/-- The inner-loop test of getServerIp of backend/server.js: an interface
yields its address when its family is IPv4 and it is not internal. -/
def ifaceIPv4 (iface : NetInterface) : Option String :=
  if iface.family == "IPv4" && !iface.internal then some iface.address else none

/-- The outer loop body of getServerIp: the first qualifying address of one
named interface group. -/
def interfaceAddr (p : String × List NetInterface) : Option String :=
  p.2.findSome? ifaceIPv4

/-- Embedding of getServerIp of backend/server.js: walk the interface map and
return the first address whose family is IPv4 and which is not internal;
return "unknown" when no interface qualifies. -/
def getServerIp (interfaces : List (String × List NetInterface)) : String :=
  match interfaces.findSome? interfaceAddr with
  | some addr => addr
  | none => "unknown"

/-- A hexadecimal digit as accepted when casting a string to an ObjectId. -/
def isHexDigit (c : Char) : Bool :=
  c.isDigit || (('a' ≤ c) && (c ≤ 'f')) || (('A' ≤ c) && (c ≤ 'F'))

/-- A string casts to a Mongo ObjectId exactly when it is 24 hex characters;
route parameters failing this raise a CastError in the handlers. -/
def validObjectId (s : String) : Bool :=
  s.length == 24 && s.toList.all isHexDigit

/-- Model of ObjectId generation for a saved document: a 24-hex-character
identifier derived from a per-process counter. -/
def freshObjectId (counter : Nat) : String :=
  String.mk ((List.range 24).map (fun i => Nat.digitChar (counter / 16 ^ i % 16)))

/-- The message of the CastError raised when a route parameter is not a valid
ObjectId. -/
def castErrorMessage (objId : String) : String :=
  "Cast to ObjectId failed for value " ++ objId

/-- The message of the ValidationError raised by save when the required title
path is missing. -/
def validationErrorMessage : String :=
  "Task validation failed: title is required"

/-- JSON response bodies produced by the task routes. -/
inductive RespBody where
  | tasks (ts : List Task)
  | task (t : Option Task)
  | message (m : String)
  | error (e : String)
deriving Repr, DecidableEq

/-- An HTTP response: status code and JSON body. -/
abbrev Response := Nat × RespBody

/-- Sort order used by Task.find().sort(createdAt: -1): createdAt descending. -/
def byCreatedAtDesc (a b : Task) : Bool :=
  decide (b.createdAt ≤ a.createdAt)

/-- GET /api/tasks: list every document sorted by createdAt descending with
status 200; a failing query is caught and answered 500 with the error
message. -/
def listTasks (store : List Task) (dbErr : Option String) : Response :=
  match dbErr with
  | some e => (500, .error e)
  | none => (200, .tasks (store.mergeSort byCreatedAtDesc))

/-- The mongoose required check on the title path: save fails when the title
is absent or the empty string. -/
def titlePresent (b : TaskBody) : Bool :=
  match b.title with
  | some t => t != ""
  | none => false

/-- POST /api/tasks: build a document from the spread of the request body with
serverHostname and serverIp overwritten with the identity of the handling process,
apply the schema defaults to absent fields, validate and save.  Success
answers 201 with the saved document; a validation or save failure is caught
and answered 400 with the error message. -/
def createTask (store : List Task) (body : TaskBody) (now : Nat) (freshId : String)
    (hostname ip : String) (dbErr : Option String) : Response × List Task :=
  if titlePresent body then
    match dbErr with
    | some e => ((400, .error e), store)
    | none =>
      let t : Task :=
        { _id := body._id.getD freshId
          title := body.title.getD ""
          description := body.description
          completed := body.completed.getD false
          createdAt := body.createdAt.getD now
          serverHostname := some hostname
          serverIp := some ip }
      ((201, .task (some t)), store ++ [t])
  else
    ((400, .error validationErrorMessage), store)

/-- The field merge performed by findByIdAndUpdate: every field present in the
request body replaces the stored one, absent fields are kept, the identifier
is immutable. -/
def applyUpdate (t : Task) (b : TaskBody) : Task :=
  { _id := t._id
    title := b.title.getD t.title
    description := match b.description with | some d => some d | none => t.description
    completed := b.completed.getD t.completed
    createdAt := b.createdAt.getD t.createdAt
    serverHostname := match b.serverHostname with | some h => some h | none => t.serverHostname
    serverIp := match b.serverIp with | some i => some i | none => t.serverIp }

/-- PUT /api/tasks/:id: findByIdAndUpdate with the request body and new true,
answering 200 with the updated document, or with null when no document has the
identifier; a CastError on a malformed identifier or a store failure is caught
and answered 400 with the error message. -/
def updateTask (store : List Task) (objId : String) (body : TaskBody)
    (dbErr : Option String) : Response × List Task :=
  if validObjectId objId then
    match dbErr with
    | some e => ((400, .error e), store)
    | none =>
      match store.find? (fun t => t._id == objId) with
      | some t =>
        ((200, .task (some (applyUpdate t body))),
          store.map (fun u => if u._id == objId then applyUpdate u body else u))
      | none => ((200, .task none), store)
  else
    ((400, .error (castErrorMessage objId)), store)

/-- DELETE /api/tasks/:id: findByIdAndDelete followed by a fixed confirmation
message with status 200; a CastError on a malformed identifier or a store
failure is caught and answered 400 with the error message. -/
def deleteTask (store : List Task) (objId : String) (dbErr : Option String) :
    Response × List Task :=
  if validObjectId objId then
    match dbErr with
    | some e => ((400, .error e), store)
    | none => ((200, .message "Task deleted"), store.filter (fun t => t._id != objId))
  else
    ((400, .error (castErrorMessage objId)), store)

end Backend

namespace Infra

/-- The parameters of an elbv2 create-target-group invocation. -/
structure TargetGroupConfig where
  name : String
  protocol : String
  port : Nat
  healthCheckEnabled : Bool
  healthCheckProtocol : String
  healthCheckPath : String
  healthCheckIntervalSeconds : Nat
  healthCheckTimeoutSeconds : Nat
  healthyThresholdCount : Nat
  unhealthyThresholdCount : Nat
deriving Repr, DecidableEq

/-- The create-target-group call of step 7 of aws-setup.sh, with the literal
flag values passed there. -/
def backendTargetGroup : TargetGroupConfig :=
  { name := "backend-tg"
    protocol := "HTTP"
    port := 5000
    healthCheckEnabled := true
    healthCheckProtocol := "HTTP"
    healthCheckPath := "/health"
    healthCheckIntervalSeconds := 30
    healthCheckTimeoutSeconds := 5
    healthyThresholdCount := 2
    unhealthyThresholdCount := 3 }

end Infra

namespace Frontend

/-- A client-side JSON value as held in the tasks state of App.js: a task
record, an error object as sent by a failed route, or null. -/
inductive JVal where
  | jtask (t : Backend.Task)
  | jerror (e : String)
  | jnull
deriving Repr, DecidableEq

/-- The value read off a list entry by the expression task._id of App.js;
an error object or null has no _id member. -/
def jvalId : JVal → Option String
  | .jtask t => some t._id
  | .jerror _ => none
  | .jnull => none

/-- The controlled inputs of the newTask form. -/
structure NewTaskForm where
  title : String
  description : String
deriving Repr, DecidableEq

/-- The React state of the App component that the handlers touch. -/
structure ClientState where
  tasks : List JVal
  newTask : NewTaskForm
  loading : Bool
deriving Repr, DecidableEq

/-- A resolved fetch: HTTP status and the parsed JSON body. -/
structure HttpResp where
  status : Nat
  body : JVal
deriving Repr, DecidableEq

/-- The outcome of a fetch call: a response of any status resolves the
promise, only a network-level failure rejects it. -/
abbrev FetchResult := Except String HttpResp

/-- Embedding of createTask of App.js: on any resolved fetch the parsed body
is prepended to the tasks state and the form is cleared, with no look at the
response status; a rejected fetch reaches the catch branch, which only logs.
Both paths end by clearing the loading flag. -/
def createTask (st : ClientState) (fetchResult : FetchResult) : ClientState :=
  match fetchResult with
  | .ok resp =>
    { tasks := resp.body :: st.tasks
      newTask := { title := "", description := "" }
      loading := false }
  | .error _ => { st with loading := false }

/-- Embedding of toggleTask of App.js: on any resolved fetch the parsed body
replaces every list entry whose _id equals the toggled identifier, with no
look at the response status; a rejected fetch only logs. -/
def toggleTask (st : ClientState) (objId : String) (fetchResult : FetchResult) :
    ClientState :=
  match fetchResult with
  | .ok resp =>
    { st with tasks := st.tasks.map (fun x => if jvalId x == some objId then resp.body else x) }
  | .error _ => st

/-- The PUT body sent by toggleTask of App.js: only the completed flag,
inverted. -/
def toggleBody (completed : Bool) : Backend.TaskBody :=
  { completed := some (!completed) }

/-- The effect one toggle has on the stored document through the update route
and its findByIdAndUpdate merge: the body sent inverts the current flag. -/
def serverToggle (t : Backend.Task) : Backend.Task :=
  Backend.applyUpdate t (toggleBody t.completed)

/-- Which API endpoint a network call of the mount effect hits. -/
inductive ApiCall where
  | tasks
  | serverInfo
deriving Repr, DecidableEq

/-- The setInterval period of the mount effect of App.js, in milliseconds. -/
def pollPeriodMs : Nat := 10000

/-- Timeline of the mount effect of App.js, times in milliseconds since
mount: fetchTasks and fetchServerInfo run once at mount, then the interval
timer runs fetchServerInfo at every elapsed multiple of the period strictly
before clearInterval runs at teardown, after which nothing fires. -/
def effectCalls (teardown : Nat) : List (Nat × ApiCall) :=
  (0, ApiCall.tasks) :: (0, ApiCall.serverInfo) ::
    ((List.range teardown).filter (fun t => t % pollPeriodMs == 0 && t != 0)).map
      (fun t => (t, ApiCall.serverInfo))

end Frontend

/-- A concrete stored document used to instantiate the claims. -/
def sampleTask : Backend.Task :=
  { _id := "aaaaaaaaaaaaaaaaaaaaaaaa"
    title := "Buy milk"
    description := none
    completed := false
    createdAt := 5
    serverHostname := some "web-1"
    serverIp := some "172.31.5.9" }

/-- The identifier of a freshly generated document is never the empty
string: it always has 24 characters. -/
theorem freshObjectId_ne_empty (counter : Nat) : Backend.freshObjectId counter ≠ "" := by
  intro hcontra
  have hlen := congrArg (fun s => s.data.length) hcontra
  simp [Backend.freshObjectId] at hlen

/-- When every interface address is non-empty, getServerIp never returns the
empty string: it returns either one of those addresses or "unknown". -/
theorem getServerIp_ne_empty (interfaces : List (String × List Backend.NetInterface))
    (h : ∀ p ∈ interfaces, ∀ i ∈ p.2, i.address ≠ "") :
    Backend.getServerIp interfaces ≠ "" := by
  unfold Backend.getServerIp
  rcases hf : interfaces.findSome? Backend.interfaceAddr with _ | addr
  · simp
  · obtain ⟨p, hp, hpe⟩ := List.exists_of_findSome?_eq_some hf
    obtain ⟨i, hi, hie⟩ := List.exists_of_findSome?_eq_some hpe
    unfold Backend.ifaceIPv4 at hie
    by_cases hc : (i.family == "IPv4" && !i.internal) = true
    · rw [if_pos hc] at hie
      cases hie
      exact h p hp i hi
    · rw [if_neg hc] at hie
      cases hie

/-- Claim C1, counterexample: the identifier bbbb... is well-formed and stored
nowhere, yet the delete route answers 200 with the success confirmation, not a
client-input error status. -/
theorem delete_missing_id_counterexample :
    Backend.validObjectId "bbbbbbbbbbbbbbbbbbbbbbbb" = true ∧
    (∀ t ∈ [sampleTask], t._id ≠ "bbbbbbbbbbbbbbbbbbbbbbbb") ∧
    (Backend.deleteTask [sampleTask] "bbbbbbbbbbbbbbbbbbbbbbbb" none).1 =
      (200, Backend.RespBody.message "Task deleted") ∧
    (Backend.deleteTask [sampleTask] "bbbbbbbbbbbbbbbbbbbbbbbb" none).1.1 ≠ 400 :=
  ⟨by decide, by decide, rfl, by decide⟩

/-- Claim C1, amended: a delete request with a well-formed identifier always
returns the confirmation message with status 200, whether or not a task with
that identifier is stored; when the task was stored it is removed, so no
subsequent list result mentions the identifier. -/
theorem delete_wellformed_id_spec (store : List Backend.Task) (objId : String)
    (h : Backend.validObjectId objId = true) :
    (Backend.deleteTask store objId none).1 = (200, Backend.RespBody.message "Task deleted") ∧
    (∀ t ∈ (Backend.deleteTask store objId none).2, t._id ≠ objId) ∧
    ∀ ts, (Backend.listTasks (Backend.deleteTask store objId none).2 none).2 =
        Backend.RespBody.tasks ts → ∀ t ∈ ts, t._id ≠ objId := by
  have hd : Backend.deleteTask store objId none =
      ((200, Backend.RespBody.message "Task deleted"),
        store.filter (fun t => t._id != objId)) := by
    simp [Backend.deleteTask, h]
  refine ⟨by rw [hd], ?_, ?_⟩
  · intro t ht
    rw [hd] at ht
    simp only [List.mem_filter] at ht
    simpa using ht.2
  · intro ts hts t ht
    rw [hd] at hts
    simp only [Backend.listTasks] at hts
    injection hts with h2
    subst h2
    simp only [List.mem_mergeSort, List.mem_filter] at ht
    simpa using ht.2

/-- Claim C1, witness for the amended statement at a stored identifier. -/
theorem delete_wellformed_id_spec_witness :
    Backend.validObjectId "aaaaaaaaaaaaaaaaaaaaaaaa" = true ∧
    (Backend.deleteTask [sampleTask] "aaaaaaaaaaaaaaaaaaaaaaaa" none).1 =
      (200, Backend.RespBody.message "Task deleted") ∧
    ∀ t ∈ (Backend.deleteTask [sampleTask] "aaaaaaaaaaaaaaaaaaaaaaaa" none).2,
      t._id ≠ "aaaaaaaaaaaaaaaaaaaaaaaa" := by
  have hh := delete_wellformed_id_spec [sampleTask] "aaaaaaaaaaaaaaaaaaaaaaaa" (by decide)
  exact ⟨by decide, hh.1, hh.2.1⟩

/-- Claim C2, counterexample: a create request whose body carries createdAt 42
is persisted with createdAt 42, not with the server creation timestamp 100:
createdAt is client-settable through the body spread. -/
theorem create_clientCreatedAt_counterexample :
    ((Backend.createTask [] { title := some "x", createdAt := some 42 } 100
        (Backend.freshObjectId 0) "web-1" "172.31.5.9" none).2.map
      Backend.Task.createdAt) = [42] ∧ (42 : Nat) ≠ 100 :=
  ⟨rfl, by decide⟩

/-- Claim C2, amended: on every successful create the serverHostname and
serverIp of the stored record are the own identity of the handling process
whatever the body supplied, while createdAt is the server timestamp only when
the body omits it — a client-supplied createdAt is stored as given. -/
theorem create_server_identity_spec (store : List Backend.Task) (body : Backend.TaskBody)
    (now : Nat) (freshId hostname ip : String) (ht : Backend.titlePresent body = true) :
    ∃ t : Backend.Task,
      (Backend.createTask store body now freshId hostname ip none).2 = store ++ [t] ∧
      t.serverHostname = some hostname ∧ t.serverIp = some ip ∧
      t.createdAt = body.createdAt.getD now := by
  refine ⟨{ _id := body._id.getD freshId, title := body.title.getD "",
            description := body.description, completed := body.completed.getD false,
            createdAt := body.createdAt.getD now,
            serverHostname := some hostname, serverIp := some ip }, ?_, rfl, rfl, rfl⟩
  simp [Backend.createTask, ht]

/-- Claim C2, witness for the amended statement. -/
theorem create_server_identity_spec_witness :
    Backend.titlePresent { title := some "a" } = true ∧
    ∃ t : Backend.Task,
      (Backend.createTask [] { title := some "a" } 7 "f" "h" "i" none).2 = [] ++ [t] ∧
      t.serverHostname = some "h" ∧ t.serverIp = some "i" ∧
      t.createdAt = (Backend.TaskBody.createdAt { title := some "a" }).getD 7 :=
  ⟨by decide, create_server_identity_spec [] { title := some "a" } 7 "f" "h" "i" (by decide)⟩

/-- Claim C3: the browser handlers treat any resolved response as success
data without consulting the HTTP status — a 400 error body is prepended by
createTask (clearing the form) and substituted for the matched entry by
toggleTask — while only a rejected fetch reaches the catch branch, which
leaves the state unchanged apart from the loading flag. -/
theorem client_trusts_any_status (st : Frontend.ClientState) (status : Nat) (e objId : String) :
    Frontend.createTask st (Except.ok { status := status, body := Frontend.JVal.jerror e }) =
      { tasks := Frontend.JVal.jerror e :: st.tasks,
        newTask := { title := "", description := "" }, loading := false } ∧
    Frontend.toggleTask st objId (Except.ok { status := status, body := Frontend.JVal.jerror e }) =
      { st with tasks := st.tasks.map (fun x =>
          if Frontend.jvalId x == some objId then Frontend.JVal.jerror e else x) } ∧
    ∀ netErr : String,
      Frontend.createTask st (Except.error netErr) = { st with loading := false } ∧
      Frontend.toggleTask st objId (Except.error netErr) = st :=
  ⟨rfl, rfl, fun _ => ⟨rfl, rfl⟩⟩

/-- Claim C5: a create request without a title fails with the 400 validation
error and leaves the store unchanged. -/
theorem create_missing_title_spec (store : List Backend.Task) (body : Backend.TaskBody)
    (now : Nat) (freshId hostname ip : String) (dbErr : Option String)
    (hm : Backend.titlePresent body = false) :
    (Backend.createTask store body now freshId hostname ip dbErr).1 =
      (400, Backend.RespBody.error Backend.validationErrorMessage) ∧
    (Backend.createTask store body now freshId hostname ip dbErr).2 = store := by
  constructor <;> simp [Backend.createTask, hm]

/-- Claim C5, witness: the empty body fails and a one-task store is kept. -/
theorem create_missing_title_spec_witness :
    Backend.titlePresent {} = false ∧
    (Backend.createTask [sampleTask] {} 9 "f" "h" "i" none).1 =
      (400, Backend.RespBody.error Backend.validationErrorMessage) ∧
    (Backend.createTask [sampleTask] {} 9 "f" "h" "i" none).2 = [sampleTask] := by
  have hh := create_missing_title_spec [sampleTask] {} 9 "f" "h" "i" none (by decide)
  exact ⟨by decide, hh.1, hh.2⟩

/-- Claim C6: toggling a task twice through the update route returns exactly
the original document — in particular identifier, title, description and the
completed flag are restored, and one toggle inverts the flag. -/
theorem toggle_twice_involutive (t : Backend.Task) :
    Frontend.serverToggle (Frontend.serverToggle t) = t ∧
    (Frontend.serverToggle t).completed = !t.completed ∧
    (Frontend.serverToggle t)._id = t._id ∧
    (Frontend.serverToggle t).title = t.title ∧
    (Frontend.serverToggle t).description = t.description := by
  cases t
  simp [Frontend.serverToggle, Frontend.toggleBody, Backend.applyUpdate]

/-- Claim C9: the target-group creation of aws-setup.sh passes exactly the
health-check constants the specification lists, on port 5000. -/
theorem target_group_health_check_constants :
    Infra.backendTargetGroup.healthCheckProtocol = "HTTP" ∧
    Infra.backendTargetGroup.healthCheckPath = "/health" ∧
    Infra.backendTargetGroup.healthCheckIntervalSeconds = 30 ∧
    Infra.backendTargetGroup.healthCheckTimeoutSeconds = 5 ∧
    Infra.backendTargetGroup.healthyThresholdCount = 2 ∧
    Infra.backendTargetGroup.unhealthyThresholdCount = 3 ∧
    Infra.backendTargetGroup.port = 5000 ∧
    Infra.backendTargetGroup.protocol = "HTTP" :=
  ⟨rfl, rfl, rfl, rfl, rfl, rfl, rfl, rfl⟩

/-- Claim C4: an update on a well-formed identifier matching no stored record
answers a 200 success whose task result is null, not a distinct not-found
signal; a malformed identifier answers 400 with the cast failure message, and
a persistence failure answers 400 with the underlying message. -/
theorem update_missing_id_spec (store : List Backend.Task) (objId : String)
    (body : Backend.TaskBody) :
    (Backend.validObjectId objId = true → (∀ t ∈ store, t._id ≠ objId) →
      Backend.updateTask store objId body none =
        ((200, Backend.RespBody.task none), store)) ∧
    (Backend.validObjectId objId = false →
      (Backend.updateTask store objId body none).1 =
        (400, Backend.RespBody.error (Backend.castErrorMessage objId))) ∧
    ∀ e, Backend.validObjectId objId = true →
      (Backend.updateTask store objId body (some e)).1 =
        (400, Backend.RespBody.error e) := by
  refine ⟨?_, ?_, ?_⟩
  · intro hv hnone
    have hfind : store.find? (fun t => t._id == objId) = none := by
      rw [List.find?_eq_none]
      intro t ht
      simpa using hnone t ht
    simp [Backend.updateTask, hv, hfind]
  · intro hv
    simp [Backend.updateTask, hv]
  · intro e hv
    simp [Backend.updateTask, hv]

/-- Claim C4, witness: an empty store with a well-formed identifier, a
malformed identifier, and a store failure. -/
theorem update_missing_id_spec_witness :
    Backend.updateTask [sampleTask] "bbbbbbbbbbbbbbbbbbbbbbbb" { completed := some true } none
      = ((200, Backend.RespBody.task none), [sampleTask]) ∧
    (Backend.updateTask [sampleTask] "not-an-objectid" { completed := some true } none).1 =
      (400, Backend.RespBody.error (Backend.castErrorMessage "not-an-objectid")) ∧
    (Backend.updateTask [sampleTask] "bbbbbbbbbbbbbbbbbbbbbbbb" { completed := some true }
        (some "connection lost")).1 =
      (400, Backend.RespBody.error "connection lost") := by
  refine ⟨?_, ?_, ?_⟩
  · exact (update_missing_id_spec [sampleTask] _ _).1 (by decide) (by decide)
  · exact (update_missing_id_spec [sampleTask] _ _).2.1 (by decide)
  · exact (update_missing_id_spec [sampleTask] _ _).2.2 "connection lost" (by decide)

/-- Claim C7: for every store the list route answers 200 with a permutation
of the stored records that is pairwise sorted by createdAt descending, and a
persistence failure answers 500 with the underlying error message. -/
theorem list_tasks_spec (store : List Backend.Task) :
    (∃ ts, Backend.listTasks store none = (200, Backend.RespBody.tasks ts) ∧
      List.Perm ts store ∧ ts.Pairwise (fun a b => b.createdAt ≤ a.createdAt)) ∧
    ∀ e, Backend.listTasks store (some e) = (500, Backend.RespBody.error e) := by
  refine ⟨⟨store.mergeSort Backend.byCreatedAtDesc, rfl,
    List.mergeSort_perm store Backend.byCreatedAtDesc, ?_⟩, fun e => rfl⟩
  have hs := @List.sorted_mergeSort Backend.Task Backend.byCreatedAtDesc
    (fun a b c hab hbc => by
      simp only [Backend.byCreatedAtDesc, decide_eq_true_eq] at hab hbc ⊢
      omega)
    (fun a b => by
      simp only [Backend.byCreatedAtDesc, Bool.or_eq_true, decide_eq_true_eq]
      omega)
    store
  exact hs.imp (fun hab => by simpa [Backend.byCreatedAtDesc] using hab)

/-- Claim C8: creating a task with only a title answers 201; the stored
record has completed false, a non-empty server-assigned identifier, a
createdAt no earlier than the issue time of the request, and non-empty
serverHostname and serverIp. -/
theorem create_only_title_spec (store : List Backend.Task) (title : String)
    (now issueTime counter : Nat) (hostname : String)
    (interfaces : List (String × List Backend.NetInterface))
    (ht : title ≠ "") (hhost : hostname ≠ "") (hissue : issueTime ≤ now)
    (haddr : ∀ p ∈ interfaces, ∀ i ∈ p.2, i.address ≠ "") :
    ∃ t : Backend.Task,
      Backend.createTask store { title := some title } now (Backend.freshObjectId counter)
          hostname (Backend.getServerIp interfaces) none
        = ((201, Backend.RespBody.task (some t)), store ++ [t]) ∧
      t.completed = false ∧ t._id ≠ "" ∧ issueTime ≤ t.createdAt ∧
      t.serverHostname = some hostname ∧ hostname ≠ "" ∧
      ∃ ipVal, t.serverIp = some ipVal ∧ ipVal ≠ "" := by
  have htp : Backend.titlePresent { title := some title } = true := by
    simpa [Backend.titlePresent] using ht
  refine ⟨{ _id := Backend.freshObjectId counter, title := title,
            description := none, completed := false, createdAt := now,
            serverHostname := some hostname,
            serverIp := some (Backend.getServerIp interfaces) }, ?_, rfl,
          freshObjectId_ne_empty counter, hissue, rfl, hhost,
          ⟨Backend.getServerIp interfaces, rfl, getServerIp_ne_empty interfaces haddr⟩⟩
  simp [Backend.createTask, htp]

/-- Claim C8, witness at concrete inputs. -/
theorem create_only_title_spec_witness :
    ∃ t : Backend.Task,
      Backend.createTask [] { title := some "Buy milk" } 10 (Backend.freshObjectId 0)
          "web-1" (Backend.getServerIp [("eth0",
            [{ family := "IPv4", internal := false, address := "172.31.5.9" }])]) none
        = ((201, Backend.RespBody.task (some t)), [] ++ [t]) ∧
      t.completed = false ∧ t._id ≠ "" ∧ 4 ≤ t.createdAt ∧
      t.serverHostname = some "web-1" ∧ "web-1" ≠ "" ∧
      ∃ ipVal, t.serverIp = some ipVal ∧ ipVal ≠ "" :=
  create_only_title_spec [] "Buy milk" 10 4 0 "web-1"
    [("eth0", [{ family := "IPv4", internal := false, address := "172.31.5.9" }])]
    (by decide) (by decide) (by decide) (by decide)

/-- Claim C10: the mount effect fetches the task list exactly once, the
server-info snapshot exactly once at mount, then only server-info at every
elapsed multiple of the 10-second period strictly before teardown, and no
call at all fires at or after teardown. -/
theorem mount_effect_polling (teardown : Nat) :
    ((Frontend.effectCalls teardown).filter
        (fun c => c.2 == Frontend.ApiCall.tasks)).length = 1 ∧
    ((Frontend.effectCalls teardown).filter
        (fun c => c.1 == 0 && c.2 == Frontend.ApiCall.serverInfo)).length = 1 ∧
    (∀ t : Nat, 0 < t → t < teardown → t % Frontend.pollPeriodMs = 0 →
      (t, Frontend.ApiCall.serverInfo) ∈ Frontend.effectCalls teardown) ∧
    (∀ p ∈ Frontend.effectCalls teardown, p.1 ≠ 0 →
      p.2 = Frontend.ApiCall.serverInfo ∧ p.1 % Frontend.pollPeriodMs = 0 ∧
        p.1 < teardown) ∧
    (0 < teardown → ∀ p ∈ Frontend.effectCalls teardown, p.1 < teardown) := by
  have key1 : ∀ lst : List Nat,
      ((lst.map (fun t => (t, Frontend.ApiCall.serverInfo))).filter
        (fun c => c.2 == Frontend.ApiCall.tasks)) = [] := by
    intro lst
    induction lst with
    | nil => rfl
    | cons a l ih => simp [ih]
  have key2 : ∀ lst : List Nat, (∀ t ∈ lst, t ≠ 0) →
      ((lst.map (fun t => (t, Frontend.ApiCall.serverInfo))).filter
        (fun c => c.1 == 0 && c.2 == Frontend.ApiCall.serverInfo)) = [] := by
    intro lst
    induction lst with
    | nil => intro _; rfl
    | cons a l ih =>
      intro h
      have ha : a ≠ 0 := h a (by simp)
      have hrest := ih (fun t htl => h t (List.mem_cons_of_mem a htl))
      simp [List.filter_cons, ha, hrest]
  refine ⟨?_, ?_, ?_, ?_, ?_⟩
  · simp only [Frontend.effectCalls, List.filter_cons]
    rw [key1]
    simp
  · simp only [Frontend.effectCalls, List.filter_cons]
    rw [key2 _ (fun t htl => by
      simp only [List.mem_filter, List.mem_range] at htl
      have := htl.2
      simp at this
      exact this.2)]
    simp
  · intro t ht0 htlt hmod
    have ht0' : t ≠ 0 := Nat.pos_iff_ne_zero.mp ht0
    simp only [Frontend.effectCalls, List.mem_cons, List.mem_map, List.mem_filter,
      List.mem_range]
    right; right
    exact ⟨t, ⟨htlt, by simp [hmod, ht0']⟩, rfl⟩
  · intro p hp hne
    simp only [Frontend.effectCalls, List.mem_cons, List.mem_map, List.mem_filter,
      List.mem_range] at hp
    rcases hp with h | h | ⟨t, ⟨htrange, hq⟩, hfp⟩
    · rw [h] at hne
      simp at hne
    · rw [h] at hne
      simp at hne
    · rw [← hfp]
      simp at hq
      exact ⟨rfl, hq.1, htrange⟩
  · intro hpos p hp
    simp only [Frontend.effectCalls, List.mem_cons, List.mem_map, List.mem_filter,
      List.mem_range] at hp
    rcases hp with h | h | ⟨t, ⟨htrange, hq⟩, hfp⟩
    · rw [h]
      exact hpos
    · rw [h]
      exact hpos
    · rw [← hfp]
      exact htrange

/-- Claim C10, witness: with teardown after 20.001 seconds the timer has
fired at 10000 and all calls are before teardown. -/
theorem mount_effect_polling_witness :
    ((Frontend.effectCalls 20001).filter
        (fun c => c.2 == Frontend.ApiCall.tasks)).length = 1 ∧
    (10000, Frontend.ApiCall.serverInfo) ∈ Frontend.effectCalls 20001 ∧
    ((10000 : Nat) % Frontend.pollPeriodMs = 0 ∧ (10000 : Nat) < 20001) ∧
    ∀ p ∈ Frontend.effectCalls 20001, p.1 < 20001 := by
  have h := mount_effect_polling 20001
  have hmem := h.2.2.1 10000 (by decide) (by decide) (by decide)
  exact ⟨h.1, hmem,
    ⟨(h.2.2.2.1 _ hmem (by decide)).2.1, (h.2.2.2.1 _ hmem (by decide)).2.2⟩,
    h.2.2.2.2 (by decide)⟩
